import Mathlib

/-!
Verification development for the Event Horizon repository: a shallow
embedding of its Python test-harness code (page discovery, static pattern
checks, link checking, the fixture-server setup, test-runner semantics)
together with spec-modelled definitions for the site behaviors the test
scripts probe (theme toggle, language switch, lazy loading) and for the
declarative verification engine of the spec.
-/

/-- Prefix test on character lists: `isPre n h` is true iff `n` is a
leading segment of `h` (models Python `str.startswith` / anchored regex
literal matching). -/
def isPre : List Char → List Char → Bool
  | [], _ => true
  | _ :: _, [] => false
  | a :: as, b :: bs => a == b && isPre as bs

/-- Substring containment on character lists: models Python's
`needle in hay`. -/
def containsSub (needle : List Char) : List Char → Bool
  | [] => isPre needle []
  | b :: bs => isPre needle (b :: bs) || containsSub needle bs

/-- String-level wrapper for `containsSub`: models Python `needle in hay`. -/
def strContains (needle hay : String) : Bool :=
  containsSub needle.data hay.data

/-- Suffix test, models Python `str.endswith` (used instead of
`String.endsWith`, whose byte-position recursion does not reduce in the
kernel): `suffix` is a trailing segment of `s`. -/
def strEndsWith (s suffix : String) : Bool :=
  isPre suffix.data.reverse s.data.reverse

/-- `ALL_HTML_FILES` of `src/test.py` line 14: every name in the directory
listing ending in `.html`. -/
def ALL_HTML_FILES (listing : List String) : List String :=
  listing.filter (fun f => strEndsWith f ".html")

/-- `FRENCH_HTML_FILES` of `src/test.py` line 15: HTML files neither ending
in `-en.html` nor containing `"bak"`. -/
def FRENCH_HTML_FILES (listing : List String) : List String :=
  (ALL_HTML_FILES listing).filter
    (fun f => !strEndsWith f "-en.html" && !strContains "bak" f)

/-- `ENGLISH_HTML_FILES` of `src/test.py` line 16: HTML files ending in
`-en.html`. -/
def ENGLISH_HTML_FILES (listing : List String) : List String :=
  (ALL_HTML_FILES listing).filter (fun f => strEndsWith f "-en.html")

/-- C9: page discovery partitions the HTML file set consistently:
`FRENCH_HTML_FILES` and `ENGLISH_HTML_FILES` are disjoint subsets of
`ALL_HTML_FILES`; every HTML file ending in `-en.html` is classified
English; an HTML file not ending in `-en.html` whose name contains
`"bak"` appears in neither language list. -/
theorem C9_language_partition (listing : List String) :
    (∀ f ∈ FRENCH_HTML_FILES listing, f ∈ ALL_HTML_FILES listing ∧
      f ∉ ENGLISH_HTML_FILES listing) ∧
    (∀ f ∈ ENGLISH_HTML_FILES listing, f ∈ ALL_HTML_FILES listing) ∧
    (∀ f ∈ ALL_HTML_FILES listing, strEndsWith f "-en.html" = true →
      f ∈ ENGLISH_HTML_FILES listing) ∧
    (∀ f, strEndsWith f "-en.html" = false → strContains "bak" f = true →
      f ∉ FRENCH_HTML_FILES listing ∧ f ∉ ENGLISH_HTML_FILES listing) := by
  refine ⟨?_, ?_, ?_, ?_⟩
  · intro f hf
    rw [FRENCH_HTML_FILES, List.mem_filter] at hf
    obtain ⟨hall, hpred⟩ := hf
    refine ⟨hall, ?_⟩
    intro hen
    rw [ENGLISH_HTML_FILES, List.mem_filter] at hen
    simp only [Bool.and_eq_true, Bool.not_eq_true'] at hpred
    rw [hpred.1] at hen
    simp at hen
  · intro f hf
    rw [ENGLISH_HTML_FILES, List.mem_filter] at hf
    exact hf.1
  · intro f hf hen
    rw [ENGLISH_HTML_FILES, List.mem_filter]
    exact ⟨hf, hen⟩
  · intro f hen hbak
    constructor
    · intro hf
      rw [FRENCH_HTML_FILES, List.mem_filter] at hf
      simp only [Bool.and_eq_true, Bool.not_eq_true'] at hf
      rw [hbak] at hf
      simp at hf
    · intro hf
      rw [ENGLISH_HTML_FILES, List.mem_filter] at hf
      rw [hen] at hf
      simp at hf

/-- Witness for C9 at a concrete directory listing. -/
theorem C9_language_partition_witness :
    "a-en.html" ∈ ENGLISH_HTML_FILES ["a-en.html", "b.html", "cbak.html", "d.txt"] ∧
    "cbak.html" ∉ FRENCH_HTML_FILES ["a-en.html", "b.html", "cbak.html", "d.txt"] := by
  refine ⟨?_, ?_⟩
  · exact (C9_language_partition ["a-en.html", "b.html", "cbak.html", "d.txt"]).2.2.1
      "a-en.html" (by decide) (by decide)
  · exact ((C9_language_partition ["a-en.html", "b.html", "cbak.html", "d.txt"]).2.2.2
      "cbak.html" (by decide) (by decide)).1

/-- Outcome status of one check, after the spec's CheckResult statuses. -/
inductive Status
  | pass
  | fail
  | error
deriving DecidableEq, Repr

/-- Outcome of running one Check against one Page: a status plus the
diagnostic message the test script would attach to the assertion. -/
structure CheckResult where
  status : Status
  message : String
deriving DecidableEq, Repr

/-- A static-pattern Check as in `src/test.py`: a named assertion that a
literal pattern occurs in the content of one target HTML file. -/
structure StaticCheck where
  id : String
  target : String
  pattern : String
deriving DecidableEq, Repr

/-- `read_file_content` of `src/test.py` lines 18-28, over an explicit
file-system map: returns the content of the file, or `none` where the
Python code would raise `FileNotFoundError`. -/
def read_file_content (fs : String → Option String) (filepath : String) :
    Option String :=
  fs filepath

/-- Run one static-pattern Check as the `TestSharedElements` methods of
`src/test.py` do: read the target file once, search for the literal
pattern, record pass or fail with the script's diagnostic message; a
missing file surfaces as an error result. -/
def runStatic (fs : String → Option String) (c : StaticCheck) : CheckResult :=
  match read_file_content fs c.target with
  | none => ⟨Status.error, "FileNotFoundError: " ++ c.target⟩
  | some content =>
      if strContains c.pattern content then ⟨Status.pass, ""⟩
      else ⟨Status.fail, c.pattern ++ " not found in " ++ c.target ++ "!"⟩

/-- The Alpine.js CDN check of `src/test.py` lines 37-47, for one target
file (the script instantiates it at `index.html` and `index-en.html`). -/
def alpineCheck (filepath : String) : StaticCheck :=
  ⟨"test_alpine_version", filepath,
    "<script defer src=\"https://cdn.jsdelivr.net/gh/alpinejs/alpine@v2.8.2/dist/alpine.min.js\"></script>"⟩

/-- C6: static checks are deterministic and idempotent: the CheckResult of
a static Check is a pure function of the target file's content, so two
runs between which that content is unchanged produce identical results
(same status and same diagnostic). -/
theorem C6_static_checks_pure (c : StaticCheck)
    (fs fs' : String → Option String)
    (h : fs c.target = fs' c.target) :
    runStatic fs c = runStatic fs' c := by
  rw [runStatic, runStatic, read_file_content, read_file_content, h]

/-- Witness for C6: two distinct file systems agreeing on `index.html`
give the Alpine check identical results. -/
theorem C6_static_checks_pure_witness :
    (fun p => if p = "index.html" then some "<html></html>" else none)
        (alpineCheck "index.html").target =
      (fun p => if p = "index.html" then some "<html></html>" else some "x")
        (alpineCheck "index.html").target ∧
    runStatic (fun p => if p = "index.html" then some "<html></html>" else none)
        (alpineCheck "index.html") =
      runStatic (fun p => if p = "index.html" then some "<html></html>" else some "x")
        (alpineCheck "index.html") := by
  refine ⟨by decide, ?_⟩
  exact C6_static_checks_pure (alpineCheck "index.html")
    (fun p => if p = "index.html" then some "<html></html>" else none)
    (fun p => if p = "index.html" then some "<html></html>" else some "x")
    (by decide)

/-- `is_port_in_use` of `src/test_all.py` lines 10-20, over an explicit
set of currently bound ports: `connect_ex` returns 0 exactly when some
process is listening on the port. -/
def is_port_in_use (boundPorts : List Nat) (port : Nat) : Bool :=
  boundPorts.contains port

/-- Setup errors of the run, after the spec's taxonomy; `portUnavailable`
is the `ConnectionError` that `TestWebsite.setUpClass` raises. -/
inductive SetupErr
  | portUnavailable
  | engineLaunch
deriving DecidableEq, Repr

/-- Resources held by the test class after a successful `setUpClass`:
the fixture server's port and the launched browser. -/
structure ClassState where
  serverPort : Nat
  browserLaunched : Bool
deriving DecidableEq, Repr

/-- `TestWebsite.setUpClass` of `src/test_all.py` lines 25-45: raise
(`Except.error`) when port 8000 is already in use, otherwise bind the
server to port 8000 (never another port) and launch the browser. -/
def setUpClass (boundPorts : List Nat) : Except SetupErr ClassState :=
  if is_port_in_use boundPorts 8000 then Except.error SetupErr.portUnavailable
  else Except.ok ⟨8000, true⟩

/-- Run the whole test class the way `unittest` does: when `setUpClass`
raises, the class is reported as a setup error and no test body runs;
otherwise every test body runs against the class state. -/
def runTestClass (boundPorts : List Nat)
    (testBodies : List (ClassState → CheckResult)) :
    Option SetupErr × List CheckResult :=
  match setUpClass boundPorts with
  | Except.error e => (some e, [])
  | Except.ok st => (none, testBodies.map (fun body => body st))

/-- C1: if port 8000 is already bound when the run starts, `setUpClass`
fails with the port-unavailable setup error before any check executes:
the run records the setup error and an empty result list, and no test
body runs; moreover a successful setup always binds exactly port 8000,
never silently another port. -/
theorem C1_port_conflict (boundPorts : List Nat)
    (testBodies : List (ClassState → CheckResult))
    (h : is_port_in_use boundPorts 8000 = true) :
    runTestClass boundPorts testBodies = (some SetupErr.portUnavailable, []) ∧
    (∀ st, setUpClass boundPorts ≠ Except.ok st) ∧
    (∀ ports st, setUpClass ports = Except.ok st → st.serverPort = 8000) := by
  refine ⟨?_, ?_, ?_⟩
  · rw [runTestClass, setUpClass, h]
    simp
  · intro st hok
    rw [setUpClass, h] at hok
    simp at hok
  · intro ports st hok
    rw [setUpClass] at hok
    by_cases hp : is_port_in_use ports 8000 = true
    · rw [hp] at hok
      simp at hok
    · simp only [Bool.not_eq_true] at hp
      rw [hp] at hok
      simp only [if_neg Bool.false_ne_true] at hok
      cases hok
      rfl

/-- Witness for C1: with port 8000 bound and one pending test body, the
run aborts with the setup error and runs nothing. -/
theorem C1_port_conflict_witness :
    is_port_in_use [8000] 8000 = true ∧
    runTestClass [8000] [fun _ => ⟨Status.pass, ""⟩] =
      (some SetupErr.portUnavailable, []) :=
  ⟨by decide, (C1_port_conflict [8000] [fun _ => ⟨Status.pass, ""⟩] (by decide)).1⟩

/-- Fuelled scanner for `re.findall` with the pattern of
`src/test_links.py` line 36 (an href attribute value): at each position,
when the literal `href="` matches, capture the maximal run of non-quote
characters; the match succeeds only when that run is nonempty and a
closing quote follows, and scanning resumes after the closing quote.
The fuel starts at the content length, which each step strictly exceeds
the remaining content, so it never runs out before the content does. -/
def findHrefsAux : Nat → List Char → List (List Char)
  | 0, _ => []
  | _ + 1, [] => []
  | fuel + 1, c :: rest =>
    if isPre "href=\"".data (c :: rest) then
      let after := rest.drop 5
      let link := after.takeWhile (fun ch => ch != '"')
      if 0 < link.length && link.length < after.length then
        link :: findHrefsAux fuel (after.drop (link.length + 1))
      else
        findHrefsAux fuel rest
    else findHrefsAux fuel rest

/-- All href attribute values of a file content, as extracted by
`re.findall` in `TestLinks.test_internal_links`. -/
def findHrefs (content : List Char) : List (List Char) :=
  findHrefsAux content.length content

/-- The exemption test of `src/test_links.py` line 39:
`link.startswith(("http://", "https://", "mailto:", "#"))`. -/
def linkExempt (link : List Char) : Bool :=
  isPre "http://".data link || isPre "https://".data link ||
    isPre "mailto:".data link || isPre "#".data link

/-- The broken links that `TestLinks.test_internal_links` reports for one
file content: extracted hrefs that are not exempt and do not name an
existing file (`self.assertIn(link, ALL_FILES, ...)`). -/
def brokenLinks (content : List Char) (allFiles : List (List Char)) :
    List (List Char) :=
  (findHrefs content).filter (fun l => !linkExempt l && !allFiles.contains l)

/-- C10: the internal-link check exempts every href beginning with
`http://`, `https://`, `mailto:` or `#`: such a link is never reported
broken, whatever the set of existing files is. -/
theorem C10_link_exemption (content : List Char) (allFiles : List (List Char))
    (link : List Char) (h : linkExempt link = true) :
    link ∉ brokenLinks content allFiles := by
  intro hmem
  rw [brokenLinks, List.mem_filter] at hmem
  rw [h] at hmem
  simp at hmem

/-- Witness for C10: the in-page anchor `#contact` is extracted from a
concrete page yet never reported broken, even against an empty file set. -/
theorem C10_link_exemption_witness :
    "#contact".data ∈ findHrefs "<a href=\"#contact\">x</a>".data ∧
    linkExempt "#contact".data = true ∧
    "#contact".data ∉ brokenLinks "<a href=\"#contact\">x</a>".data [] :=
  ⟨by decide, by decide,
    C10_link_exemption "<a href=\"#contact\">x</a>".data [] "#contact".data (by decide)⟩

/-- Fuelled scanner for `re.findall` with the anchor-element pattern of
`src/test_apropos.py` (`<a`, then a maximal run of non-`>` characters,
then `>` followed by the given label text and `</a>`); scanning resumes
after the end of a match. -/
def linkMatchesAux (label : List Char) : Nat → List Char → List (List Char)
  | 0, _ => []
  | _ + 1, [] => []
  | fuel + 1, c :: rest =>
    if isPre "<a".data (c :: rest) then
      let attrsOn := rest.drop 1
      let attrs := attrsOn.takeWhile (fun ch => ch != '>')
      let tailPart := attrsOn.drop attrs.length
      if isPre ('>' :: (label ++ "</a>".data)) tailPart then
        ('<' :: 'a' :: (attrs ++ '>' :: (label ++ "</a>".data))) ::
          linkMatchesAux label fuel (tailPart.drop (label.length + 5))
      else linkMatchesAux label fuel rest
    else linkMatchesAux label fuel rest

/-- All anchor elements with the given visible label, as `re.findall`
extracts them in `src/test_apropos.py`. -/
def linkMatches (label content : List Char) : List (List Char) :=
  linkMatchesAux label content.length content

/-- `test_apropos_links` of `src/test_apropos.py` lines 24-44 as a
fallible computation: the first failing `assert` raises
(`Except.error`); it passes when at least two labelled links exist and
each carries the expected href. -/
def test_apropos_links (content : List Char) : Except String Unit :=
  let ms := linkMatches "À Propos".data content
  if ms.length < 2 then
    Except.error "Expected at least two apropos links in a-propos.html"
  else if ms.all (fun m => containsSub "href=\"a-propos.html\"".data m) then
    Except.ok ()
  else Except.error "Incorrect apropos link found"

/-- `test_about_links` of `src/test_apropos.py`: the English variant of
the same check. -/
def test_about_links (content : List Char) : Except String Unit :=
  let ms := linkMatches "About".data content
  if ms.length < 2 then
    Except.error "Expected at least two about links in a-propos-en.html"
  else if ms.all (fun m => containsSub "href=\"a-propos-en.html\"".data m) then
    Except.ok ()
  else Except.error "Incorrect about link found"

/-- Convert the outcome of one fallible check into a recorded result, the
way the unittest runner and `subTest` contexts do: an assertion raising
is caught and recorded as a failure. -/
def resultOf : Except String Unit → CheckResult
  | Except.ok _ => ⟨Status.pass, ""⟩
  | Except.error m => ⟨Status.fail, m⟩

/-- The unittest-runner loop over a list of checks: each check runs inside
its own catch, its outcome is recorded, and the loop continues to the
next check whatever that outcome was. -/
def runSuite {γ : Type} (run : γ → Except String Unit) :
    List γ → List CheckResult
  | [] => []
  | c :: cs => resultOf (run c) :: runSuite run cs

/-- The `__main__` block of `src/test_apropos.py`: it calls
`test_apropos_links()` and then `test_about_links()` with no exception
handling, so a failing first check propagates and the second check never
runs; only the outcomes of the checks that ran are observable. -/
def aproposScriptMain (frContent enContent : List Char) : List CheckResult :=
  match test_apropos_links frContent with
  | Except.error m => [⟨Status.fail, m⟩]
  | Except.ok _ => ⟨Status.pass, ""⟩ :: [resultOf (test_about_links enContent)]

/-- C7 counterexample: running `src/test_apropos.py` as a script on a
fixture where the first check fails (an `a-propos.html` with no labelled
links at all) records only that one failure: the sibling check
`test_about_links` never executes and has no recorded outcome, refuting
the claim that a failing Check never prevents a sibling from running. -/
theorem C7_counterexample :
    aproposScriptMain [] [] =
      [⟨Status.fail, "Expected at least two apropos links in a-propos.html"⟩] ∧
    (aproposScriptMain [] []).length = 1 := by
  constructor <;> rfl

/-- C7 (amended): under the unittest runner and `subTest` contexts, each
check runs inside its own catch, so every check in the suite executes and
contributes exactly one recorded outcome, and that outcome is a function
of the check alone — in particular a failing prefix of the suite never
prevents the remaining checks from running. -/
theorem C7_check_isolation {γ : Type} (run : γ → Except String Unit)
    (cs ds : List γ) :
    runSuite run (cs ++ ds) = runSuite run cs ++ runSuite run ds ∧
    runSuite run cs = cs.map (fun c => resultOf (run c)) := by
  constructor
  · induction cs with
    | nil => rfl
    | cons c cs ih =>
        simp only [List.cons_append, runSuite]
        rw [show cs.append ds = cs ++ ds from rfl, ih]
  · induction cs with
    | nil => rfl
    | cons c cs ih => simp only [runSuite, List.map_cons, ih]

/-- `ALL_HTML_FILES` of `src/test_footer_links.py` lines 6-9: the
discovered Page set of the footer-links suite — file names ending in
`.html` and not containing `"bak"`. -/
def footer_ALL_HTML_FILES (listing : List String) : List String :=
  listing.filter (fun f => strEndsWith f ".html" && !strContains "bak" f)

/-- The per-file body of `TestFooterLinks.test_footer_links`
(`src/test_footer_links.py` lines 18-38): which links the file content
must contain, depending on the file name. -/
def footerLinksOk (filepath content : String) : Bool :=
  if filepath == "index.html" || filepath == "index-en.html" then
    strContains "href=\"https://www.youtube.com\"" content &&
    strContains "href=\"https://www.linkedin.com\"" content &&
    strContains "href=\"https://twitter.com\"" content &&
    (if strContains "-en" filepath then
      strContains "href=\"a-propos-en.html\"" content
    else strContains "href=\"a-propos.html\"" content)
  else
    if strContains "-en" filepath then
      strContains "href=\"contact-en.html\"" content &&
        strContains "href=\"#\"" content
    else
      strContains "href=\"contact.html\"" content &&
        strContains "href=\"#\"" content

/-- The footer-links suite: one `subTest` per discovered HTML file, each
producing one recorded (page, result) pair. -/
def runFooterLinksSuite (listing : List String)
    (fs : String → Option String) : List (String × CheckResult) :=
  (footer_ALL_HTML_FILES listing).map (fun p =>
    (p, match fs p with
        | none => ⟨Status.error, "FileNotFoundError: " ++ p⟩
        | some content =>
            if footerLinksOk p content then ⟨Status.pass, ""⟩
            else ⟨Status.fail, "footer links missing in " ++ p⟩))

/-- C8: wildcard expansion is complete: a static check targeting all
pages produces its results exactly over the discovered Page set, in
order, and (the directory listing having no duplicate names) exactly one
CheckResult per discovered Page — none omitted, none checked twice. -/
theorem C8_wildcard_complete (listing : List String)
    (fs : String → Option String) (h : listing.Nodup) :
    (runFooterLinksSuite listing fs).map Prod.fst =
      footer_ALL_HTML_FILES listing ∧
    ∀ p ∈ footer_ALL_HTML_FILES listing,
      ((runFooterLinksSuite listing fs).map Prod.fst).count p = 1 := by
  have hmap : (runFooterLinksSuite listing fs).map Prod.fst =
      footer_ALL_HTML_FILES listing := by
    rw [runFooterLinksSuite, List.map_map]
    exact List.map_id _
  refine ⟨hmap, ?_⟩
  intro p hp
  rw [hmap]
  have hnodup : (footer_ALL_HTML_FILES listing).Nodup := h.filter _
  exact List.count_eq_one_of_mem hnodup hp

/-- Witness for C8 at a concrete duplicate-free listing. -/
theorem C8_wildcard_complete_witness :
    (["index.html", "a-propos.html", "notes.txt"] : List String).Nodup ∧
    (runFooterLinksSuite ["index.html", "a-propos.html", "notes.txt"]
        (fun _ => none)).map Prod.fst =
      footer_ALL_HTML_FILES ["index.html", "a-propos.html", "notes.txt"] ∧
    ((runFooterLinksSuite ["index.html", "a-propos.html", "notes.txt"]
        (fun _ => none)).map Prod.fst).count "index.html" = 1 :=
  ⟨by decide,
    (C8_wildcard_complete ["index.html", "a-propos.html", "notes.txt"]
      (fun _ => none) (by decide)).1,
    (C8_wildcard_complete ["index.html", "a-propos.html", "notes.txt"]
      (fun _ => none) (by decide)).2 "index.html" (by decide)⟩

/-- A Check target in the declarative engine of the spec: one named page,
or the "all pages" wildcard. -/
inductive CTarget
  | page (p : String)
  | allPages
deriving DecidableEq, Repr

/-- A declarative Check of the engine of the spec: id, target and the
static pattern expected on the target. -/
structure CatCheck where
  id : String
  target : CTarget
  pattern : String
deriving DecidableEq, Repr

/-- Whether a Check names a target page outside the discovered Page set
(the wildcard target is always valid). -/
def unknownTarget (pages : List String) (c : CatCheck) : Bool :=
  match c.target with
  | CTarget.page p => !pages.contains p
  | CTarget.allPages => false

/-- Expansion of one target against the discovered Page set. -/
def expandTarget (pages : List String) : CTarget → List String
  | CTarget.page p => [p]
  | CTarget.allPages => pages

/-- Modelled from the spec: the Assertion Catalog loader of section 4.3 is
not implemented under src (the repository has only ad hoc per-file test
scripts); per the spec it expands wildcard targets against the discovered
Page set and rejects a Check whose target page does not exist, failing
fast with a TargetError instead of silently skipping. -/
def loadCatalog (checks : List CatCheck) (pages : List String) :
    Except String (List (String × CatCheck)) :=
  match checks.find? (fun c => unknownTarget pages c) with
  | some c => Except.error ("TargetError: unknown target page in check " ++ c.id)
  | none => Except.ok
      ((checks.map (fun c => (expandTarget pages c.target).map
        (fun p => (p, c)))).flatten)

/-- Observable trace of one engine run: whether the browser was launched,
the recorded per-page results, and the fatal error if the run aborted. -/
structure EngineTrace where
  browserLaunched : Bool
  results : List (String × CheckResult)
  fatal : Option String
deriving Repr

/-- Modelled from the spec: the engine run pipeline — load the catalog
first; a load failure aborts the run before the browser is launched and
before any Check executes; otherwise launch the browser and run every
expanded Check. -/
def runEngine (checks : List CatCheck) (pages : List String)
    (fs : String → Option String) : EngineTrace :=
  match loadCatalog checks pages with
  | Except.error e => ⟨false, [], some e⟩
  | Except.ok expanded =>
      ⟨true, expanded.map (fun pc =>
        (pc.1, runStatic fs ⟨pc.2.id, pc.1, pc.2.pattern⟩)), none⟩

/-- C5: a Check whose target Page is not in the discovered Page set makes
the run fail at catalog-load time with a TargetError: the trace shows no
browser launch, no executed Check, and the fatal load error — the bad
target is neither skipped nor deferred to a mid-run exception. -/
theorem C5_unknown_target (checks : List CatCheck) (pages : List String)
    (fs : String → Option String) (c : CatCheck) (p : String)
    (hc : c ∈ checks) (ht : c.target = CTarget.page p)
    (hp : pages.contains p = false) :
    ∃ e, runEngine checks pages fs = ⟨false, [], some e⟩ := by
  have hpred : unknownTarget pages c = true := by
    rw [unknownTarget, ht]
    change (!pages.contains p) = true
    rw [hp]
    rfl
  rw [runEngine, loadCatalog]
  cases hfind : checks.find? (fun c => unknownTarget pages c) with
  | none =>
      exact absurd hpred (by simpa using List.find?_eq_none.mp hfind c hc)
  | some c' =>
      exact ⟨"TargetError: unknown target page in check " ++ c'.id, rfl⟩

/-- Witness for C5: a catalog with one Check aimed at a page missing from
the discovered set aborts with a TargetError before anything runs. -/
theorem C5_unknown_target_witness :
    (⟨"chk1", CTarget.page "missing.html", "x"⟩ : CatCheck) ∈
      [(⟨"chk1", CTarget.page "missing.html", "x"⟩ : CatCheck)] ∧
    (["index.html"] : List String).contains "missing.html" = false ∧
    ∃ e, runEngine [⟨"chk1", CTarget.page "missing.html", "x"⟩]
      ["index.html"] (fun _ => none) = ⟨false, [], some e⟩ :=
  ⟨by decide, by decide,
    C5_unknown_target [⟨"chk1", CTarget.page "missing.html", "x"⟩]
      ["index.html"] (fun _ => none) ⟨"chk1", CTarget.page "missing.html", "x"⟩
      "missing.html" (by decide) rfl (by decide)⟩

/-- Theme state a behavioral check observes: the `dark` class on the root
element, and the persisted `localStorage` key `theme`. -/
structure ThemeState where
  darkClass : Bool
  storedTheme : Option String
deriving DecidableEq, Repr

/-- Modelled from the spec: the theme-toggle click handler of the site
script (not under src; pinned by the assertions of
`TestBrowserInteractions.test_theme_switcher_toggle`, which accept an
absent or `light` initial preference and require the preference to be
exactly `dark` after the first click and exactly `light` after the
second): toggling from non-dark adds the `dark` class and persists
`dark`; toggling from dark removes the class and persists `light`. -/
def clickThemeToggle (s : ThemeState) : ThemeState :=
  if s.darkClass then ⟨false, some "light"⟩ else ⟨true, some "dark"⟩

/-- C2 counterexample: from the initial state with no `dark` class and an
absent persisted preference, the two-click cycle does not return to the
initial state — the preference ends as `light`, not absent. -/
theorem C2_counterexample :
    clickThemeToggle (clickThemeToggle ⟨false, none⟩) ≠
      (⟨false, none⟩ : ThemeState) := by
  decide

/-- C2 (amended): from a non-dark state with preference absent or
`light`, one click adds the `dark` class and persists `dark`; a second
click removes the class and persists `light`; the two-click cycle is the
identity exactly on the state whose stored preference is `light`. -/
theorem C2_theme_toggle_cycle (s : ThemeState) (hd : s.darkClass = false)
    (hs : s.storedTheme = none ∨ s.storedTheme = some "light") :
    clickThemeToggle s = ⟨true, some "dark"⟩ ∧
    clickThemeToggle (clickThemeToggle s) = ⟨false, some "light"⟩ ∧
    (s.storedTheme = some "light" →
      clickThemeToggle (clickThemeToggle s) = s) := by
  obtain ⟨d, st⟩ := s
  subst hd
  refine ⟨rfl, rfl, ?_⟩
  intro h
  simp only at h
  rw [h]
  rfl

/-- Witness for C2 at the concrete light initial state. -/
theorem C2_theme_toggle_cycle_witness :
    clickThemeToggle ⟨false, some "light"⟩ = ⟨true, some "dark"⟩ ∧
    clickThemeToggle (clickThemeToggle ⟨false, some "light"⟩) =
      (⟨false, some "light"⟩ : ThemeState) :=
  ⟨(C2_theme_toggle_cycle ⟨false, some "light"⟩ rfl (Or.inr rfl)).1,
    (C2_theme_toggle_cycle ⟨false, some "light"⟩ rfl (Or.inr rfl)).2.2 rfl⟩

/-- The French main title asserted by `src/test_i18n.py` and
`src/test_browser.py` (the data-i18n-key main_title element text). -/
def frenchTitle : String :=
  "Event Horizon : Dans les coulisses de l'industrie spatiale européenne"

/-- The English main title asserted by `src/test_i18n.py` and
`src/test_browser.py`. -/
def englishTitle : String :=
  "Event Horizon: Behind the scenes of the European space industry"

/-- State of the page the language-switch checks observe: the current
language and the text of the element with data-i18n-key main_title. -/
structure I18nPage where
  lang : String
  mainTitle : String
deriving DecidableEq, Repr

/-- The locale dictionary for the main_title key, with the strings the
tests in src pin for each language. -/
def translationFor (lang : String) : Option String :=
  if lang == "en" then some englishTitle
  else if lang == "fr" then some frenchTitle
  else none

/-- Modelled from the spec: the language-switch handler of the site
script (not under src): clicking the control matching [data-lang=l]
loads the locale for l and replaces the text of every data-i18n-key
element with the corresponding locale string; a language with no locale
leaves the page unchanged. -/
def clickLangSwitch (lang : String) (p : I18nPage) : I18nPage :=
  match translationFor lang with
  | some t => ⟨lang, t⟩
  | none => p

/-- C3: the language switch round-trips exactly: starting with the main
title equal to the French string, clicking [data-lang=en] makes the
title the English string, and clicking [data-lang=fr] afterwards
restores the title to exactly the original French string. -/
theorem C3_language_roundtrip (p : I18nPage) (h : p.mainTitle = frenchTitle) :
    (clickLangSwitch "en" p).mainTitle = englishTitle ∧
    (clickLangSwitch "fr" (clickLangSwitch "en" p)).mainTitle = frenchTitle ∧
    (clickLangSwitch "fr" (clickLangSwitch "en" p)).mainTitle = p.mainTitle := by
  refine ⟨rfl, rfl, ?_⟩
  rw [h]
  rfl

/-- Witness for C3 at the concrete French start page. -/
theorem C3_language_roundtrip_witness :
    (clickLangSwitch "en" ⟨"fr", frenchTitle⟩).mainTitle = englishTitle ∧
    (clickLangSwitch "fr" (clickLangSwitch "en" ⟨"fr", frenchTitle⟩)).mainTitle =
      frenchTitle :=
  ⟨(C3_language_roundtrip ⟨"fr", frenchTitle⟩ rfl).1,
    (C3_language_roundtrip ⟨"fr", frenchTitle⟩ rfl).2.1⟩

/-- A lazily loaded image element as the lazy-loading checks observe it:
its data-src attribute, whether it carries the lazy class, and its src
attribute (`none` models an absent attribute, `some ""` an empty one). -/
structure LazyElem where
  dataSrc : String
  lazyClass : Bool
  src : Option String
deriving DecidableEq, Repr

/-- A lazily loaded element as the initial markup ships it (per the
static markup check of `src/test_lazy_loading.py` and the initial-state
assertion of `TestInteractions.test_lazy_loading`): lazy class present,
src empty. -/
def initialLazyElem (dataSrc : String) : LazyElem :=
  ⟨dataSrc, true, some ""⟩

/-- Modelled from the spec: the lazy-loading script of the site (not
under src) swaps data-src into src when the element intersects the
viewport; scrolling a lazy element into view triggers the observer. -/
def scrollIntoView (e : LazyElem) : LazyElem :=
  if e.lazyClass then { e with src := some e.dataSrc } else e

/-- C4: a lazily loaded image element has an empty src before entering
the viewport, and after scrolling into view its src equals its data-src;
in general any element carrying the lazy class gets src = data-src once
scrolled into view. -/
theorem C4_lazy_loading (ds : String) :
    (initialLazyElem ds).src = some "" ∧
    (scrollIntoView (initialLazyElem ds)).src =
      some (initialLazyElem ds).dataSrc ∧
    ∀ e : LazyElem, e.lazyClass = true →
      (scrollIntoView e).src = some e.dataSrc := by
  refine ⟨rfl, rfl, ?_⟩
  intro e he
  rw [scrollIntoView, he]
  rfl

/-- Witness for C4 at a concrete element. -/
theorem C4_lazy_loading_witness :
    (initialLazyElem "images/hero.jpg").src = some "" ∧
    (scrollIntoView (⟨"images/hero.jpg", true, some ""⟩ : LazyElem)).src =
      some "images/hero.jpg" :=
  ⟨(C4_lazy_loading "images/hero.jpg").1,
    (C4_lazy_loading "images/hero.jpg").2.2
      ⟨"images/hero.jpg", true, some ""⟩ rfl⟩
